import Mathlib

/-!
Shallow embedding of the soundtrack-to-YouTube linking pipeline of the
imdb4m repository (files `linker/models.py`, `linker/gemini_matcher.py`,
`linker/youtube_client.py`, `linker/music_linker.py`,
`extract_soundtrack_links.py`), together with theorems settling the
frozen claims about it.

External effects are made explicit:
* the YouTube search / comment API calls are oracles supplied as function
  parameters; a call that raises a Python exception is a `SearchOutcome.raise`
  (respectively an `Except.error`) carrying the exception data;
* `random.uniform` draws and `time.sleep` delays are explicit: random draws
  are oracle functions of the draw position, and every sleep performed is
  collected in an output trace (`Rat` seconds);
* the Gemini LLM call plus JSON parsing of its answer is an oracle returning
  either exception data or a parsed `MatchResult`.
-/

set_option maxHeartbeats 1600000

/-- Data carried by a raised Python exception: the exception class name
(`type(e).__name__`) and its message (`str(e)`). -/
structure PyError where
  name : String
  msg : String
deriving Repr, DecidableEq

/-- Model of `SoundtrackMetadata` from `linker/models.py`. -/
structure SoundtrackMetadata where
  title : String
  composer : Option String := none
  lyrics_by : Option String := none
  performer : Option String := none
  producer : Option String := none
  movie_title : Option String := none
  additional_info : Option String := none
  is_traditional : Bool := false
  is_uncredited : Bool := false
deriving Repr, DecidableEq

/-- Model of `YouTubeComment` from `linker/models.py`. -/
structure YouTubeComment where
  author : String
  text : String
  like_count : Int := 0
  published_at : Option String := none
deriving Repr, DecidableEq

/-- Model of `YouTubeVideo` from `linker/models.py`. -/
structure YouTubeVideo where
  video_id : String
  title : String
  url : String
  description : Option String := none
  channel_title : Option String := none
  published_at : Option String := none
  view_count : Option Int := none
  like_count : Option Int := none
  duration : Option String := none
  comments : List YouTubeComment := []
deriving Repr, DecidableEq

/-- Model of `MatchScore` from `linker/models.py`.  The pydantic field constraint
`ge=0.0, le=1.0` on `confidence` is enforced at every construction site
modelled below (see `MatchResult` validation and the fallback score). -/
structure MatchScore where
  confidence : Rat
  reasoning : String
  key_factors : List String := []
  concerns : List String := []
deriving Repr, DecidableEq

/-- Model of `MusicLinkResult` from `linker/models.py` (the `timestamp` field, wall-clock
time of construction, is not modelled). -/
structure MusicLinkResult where
  soundtrack : SoundtrackMetadata
  best_match : Option YouTubeVideo := none
  match_score : Option MatchScore := none
  candidates : List YouTubeVideo := []
  search_query : String
  error : Option String := none
deriving Repr, DecidableEq

/-- Model of `MusicLinkResult.is_successful`. -/
def MusicLinkResult.is_successful (r : MusicLinkResult) : Bool :=
  r.best_match.isSome && r.error.isNone

/-- Model of `SoundtrackMetadata.to_search_query(add_performer=True, add_movie=True)`:
title always; then the performer (or, failing that, the composer) when
`add_performer`; then the movie title when `add_movie` and present;
joined with single spaces. -/
def SoundtrackMetadata.to_search_query (s : SoundtrackMetadata)
    (add_performer : Bool := true) (add_movie : Bool := true) : String :=
  let parts := [s.title]
  let parts :=
    if add_performer then
      match s.performer with
      | some p => parts ++ [p]
      | none =>
        match s.composer with
        | some c => parts ++ [c]
        | none => parts
    else parts
  let parts :=
    if add_movie then
      match s.movie_title with
      | some m => parts ++ [m]
      | none => parts
    else parts
  String.intercalate " " parts

/-- Model of `MatchResult` from `linker/gemini_matcher.py`, the structured output schema
for the Gemini answer (`best_match_index` is the 1-indexed integer returned by
the model; Python ints are unbounded so it is an `Int`). -/
structure MatchResult where
  best_match_index : Int
  confidence : Rat
  reasoning : String
  key_factors : List String
  concerns : List String := []
deriving Repr, DecidableEq

/-- The Gemini call plus `MatchResult.model_validate_json`: the oracle `resp`
stands for the API call and structural JSON decoding; on a structurally valid
answer pydantic still enforces `ge=0.0, le=1.0` on `confidence`, raising a
validation error otherwise.  Any `.error` outcome lands in the `except`
branch of `find_best_match`. -/
def parse_llm (resp : Except PyError MatchResult) : Except PyError MatchResult :=
  match resp with
  | .error e => .error e
  | .ok r =>
    if 0 ≤ r.confidence ∧ r.confidence ≤ 1 then .ok r
    else .error ⟨"ValidationError", "confidence out of range"⟩

/-- Model of `GeminiMatcher.find_best_match`.  `llm` is the oracle for the single
Gemini call made on this invocation.  Returns `(best_match, match_score,
llm_called)` where the last component records whether the LLM client was
invoked at all (the spy observation the spec asks for). -/
def GeminiMatcher.find_best_match (llm : Except PyError MatchResult)
    (_soundtrack : SoundtrackMetadata) (candidates : List YouTubeVideo)
    (_use_comments : Bool) :
    Option YouTubeVideo × Option MatchScore × Bool :=
  match candidates with
  | [] => (none, none, false)
  | c0 :: _ =>
    match parse_llm llm with
    | .ok mr =>
      -- convert the 1-indexed answer to 0-indexed
      let idx : Int := mr.best_match_index - 1
      -- clamp out-of-range indices to 0
      let idxN : Nat := if idx < 0 ∨ (candidates.length : Int) ≤ idx then 0 else idx.toNat
      let best := candidates.getD idxN c0
      (some best,
       some ⟨mr.confidence, mr.reasoning, mr.key_factors, mr.concerns⟩,
       true)
    | .error e =>
      -- fallback: first candidate with low confidence
      (some c0,
       some ⟨3/10,
             "Error in LLM matching: " ++ e.msg.take 200 ++ ". Returning top search result as fallback.",
             ["Fallback to top search result"],
             ["LLM analysis failed", "Error type: " ++ e.name]⟩,
       true)

/-- Model of `YouTubeClient.enrich_videos_with_comments`: `fetch` is the oracle for
`get_video_comments(video_id, max_results)`; a raised exception for one video
is caught there and that video is appended without comments. -/
def enrich_videos_with_comments
    (fetch : String → Nat → Except PyError (List YouTubeComment))
    (videos : List YouTubeVideo) (max_comments_per_video : Nat) :
    List YouTubeVideo :=
  videos.map fun v =>
    match fetch v.video_id max_comments_per_video with
    | .ok cs => { v with comments := cs }
    | .error _ => v

/-- Outcome of one `YouTubeClient.search_videos(query, max_results)` call:
a ranked candidate list, or a raised exception (`search_videos` re-raises
every `HttpError` it sees, quota errors included). -/
inductive SearchOutcome where
  | ok (videos : List YouTubeVideo)
  | raise (e : PyError)
deriving Repr, DecidableEq

/-- Constructor arguments of `MusicLinker` that influence control flow. -/
structure LinkerConfig where
  max_search_results : Nat := 10
  max_comments_per_video : Nat := 20
  use_comments : Bool := true
deriving Repr, DecidableEq

/-- The external world one `MusicLinker` instance talks to: the YouTube
search and comment APIs under its API key, the Gemini call made while
judging, and the `random.uniform(0, 1)` jitter draw of each backoff. -/
structure EngineEnv where
  search : String → Nat → SearchOutcome
  fetch_comments : String → Nat → Except PyError (List YouTubeComment)
  llm : Except PyError MatchResult
  jitter : Nat → Rat

/-- The query built on search attempt `attempt` (0-indexed) inside
`find_match`: `add_movie = attempt < 1`, `add_performer = attempt < 2`. -/
def query_for_attempt (s : SoundtrackMetadata) (attempt : Nat) : String :=
  s.to_search_query (decide (attempt < 2)) (decide (attempt < 1))

/-- Result of the retry loop of `find_match`: candidates found (with the
query that found them), loop exhausted with every round empty (with the last
attempted query), or an exception raised by `search_videos`.  Each carries
the backoff sleeps performed and the number of search calls made. -/
inductive RoundsOut where
  | found (videos : List YouTubeVideo) (query : String) (sleeps : List Rat) (rounds : Nat)
  | empty (query : String) (sleeps : List Rat) (rounds : Nat)
  | raised (e : PyError) (sleeps : List Rat) (rounds : Nat)
deriving Repr, DecidableEq

/-- The `for attempt in range(retries)` loop of `find_match`, recursing on
the number of remaining iterations (`remaining = retries - attempt`).  On an
empty round the loop sleeps `2 ** attempt + random.uniform(0, 1)` seconds
and moves to the next attempt — including after the final round, since the
Python loop body sleeps before the loop condition ends the iteration. -/
def search_rounds (env : EngineEnv) (cfg : LinkerConfig)
    (s : SoundtrackMetadata) :
    Nat → Nat → List Rat → RoundsOut
  | 0, attempt, sleeps => .empty (query_for_attempt s (attempt - 1)) sleeps attempt
  | remaining + 1, attempt, sleeps =>
    let q := query_for_attempt s attempt
    match env.search q cfg.max_search_results with
    | .raise e => .raised e sleeps (attempt + 1)
    | .ok videos =>
      if videos.isEmpty then
        search_rounds env cfg s remaining (attempt + 1)
          (sleeps ++ [2 ^ attempt + env.jitter attempt])
      else
        .found videos q sleeps (attempt + 1)

/-- Output of `find_match` plus its effect trace. -/
structure FindMatchOut where
  result : MusicLinkResult
  sleeps : List Rat
  rounds : Nat
deriving Repr, DecidableEq

/-- Model of `MusicLinker.find_match`.  The whole body sits in a `try` whose
`except Exception` converts any raised exception into a `MusicLinkResult`
with `error = str(e)` and `search_query = soundtrack.to_search_query()`
(the defaults) — there is no special case for quota errors, so a quota
`HttpError` raised by `search_videos` is converted like any other.
The only raiser inside the body is the search call
(`enrich_videos_with_comments` and `find_best_match` catch their own
exceptions internally), so the `RoundsOut.raised` branch is exactly the
`except` branch. -/
def MusicLinker.find_match (cfg : LinkerConfig) (env : EngineEnv)
    (soundtrack : SoundtrackMetadata) : FindMatchOut :=
  match search_rounds env cfg soundtrack 3 0 [] with
  | .raised e sleeps rounds =>
    { result := { soundtrack := soundtrack
                  search_query := soundtrack.to_search_query true true
                  error := some e.msg }
      sleeps := sleeps
      rounds := rounds }
  | .empty q sleeps rounds =>
    { result := { soundtrack := soundtrack
                  search_query := q
                  error := some "No YouTube videos found" }
      sleeps := sleeps
      rounds := rounds }
  | .found videos q sleeps rounds =>
    let candidates :=
      if cfg.use_comments then
        enrich_videos_with_comments env.fetch_comments videos cfg.max_comments_per_video
      else videos
    let r := GeminiMatcher.find_best_match env.llm soundtrack candidates cfg.use_comments
    { result := { soundtrack := soundtrack
                  best_match := r.1
                  match_score := r.2.1
                  candidates := candidates
                  search_query := q }
      sleeps := sleeps
      rounds := rounds }

/-- Model of `MusicLinker.find_matches_sequential`, with its sleep trace.
`delay_draw i` models the `random.uniform(delay_range[0], delay_range[1])`
draw made after processing record `i`; the draw and sleep happen only when
`i < len(soundtracks) - 1`.  (The `try` around `find_match` inside the loop
is dead: `find_match` never raises.) -/
def MusicLinker.find_matches_sequential (cfg : LinkerConfig) (env : EngineEnv)
    (delay_draw : Nat → Rat) :
    List SoundtrackMetadata → Nat → List MusicLinkResult × List Rat
  | [], _ => ([], [])
  | t :: rest, i =>
    let r := (MusicLinker.find_match cfg env t).result
    let out := MusicLinker.find_matches_sequential cfg env delay_draw rest (i + 1)
    match rest with
    | [] => (r :: out.1, out.2)
    | _ :: _ => (r :: out.1, delay_draw i :: out.2)

/-- Here `starts_with hay pat` means: the character list `pat` is an initial segment of
`hay` (helper for the Python `in` substring test). -/
def starts_with : List Char → List Char → Bool
  | _, [] => true
  | [], _ :: _ => false
  | c :: cs, p :: ps => c == p && starts_with cs ps

/-- Whether `pat` occurs as a contiguous sublist of the character list. -/
def has_sub (pat : List Char) : List Char → Bool
  | [] => pat.isEmpty
  | c :: cs => starts_with (c :: cs) pat || has_sub pat cs

/-- Python `pat in s` on strings. -/
def str_has_sub (s pat : String) : Bool := has_sub pat.data s.data

/-- Python `s.lower()` (sufficient for the ASCII quota markers tested). -/
def str_lower (s : String) : String := String.mk (s.data.map Char.toLower)

/-- The quota test of `process_movie` on a per-track result:
`res.error and (quotaExceeded in res.error or quota in res.error.lower())`, with the two markers as Python string literals. -/
def is_quota_error : Option String → Bool
  | none => false
  | some e => str_has_sub e "quotaExceeded" || str_has_sub (str_lower e) "quota"

/-- Model of `QuotaExceededException` from `extract_soundtrack_links.py`: carries the
index of the track that failed (`resume_index`) and the results of the
tracks already completed for the current movie (source field
`partial_results`). -/
structure QuotaExceededException where
  resume_index : Nat
  completed_results : List MusicLinkResult
deriving Repr, DecidableEq

/-- The `for idx in range(start_index, len(tracks))` loop of `process_movie`,
rendered structurally: the first argument is `tracks[start_index:]` and `idx`
counts absolute track indices.  A result whose error matches the quota test
is NOT appended; instead the loop raises `QuotaExceededException` with the
current index and the results collected so far.  (The `except HttpError`
re-check in the source is unreachable through `find_match`, which converts
every exception itself; inter-track sleeps are not traced here.) -/
def process_tracks (fm : SoundtrackMetadata → MusicLinkResult) :
    List SoundtrackMetadata → Nat → List MusicLinkResult →
    Except QuotaExceededException (List MusicLinkResult)
  | [], _, results => .ok results
  | t :: rest, idx, results =>
    let res := fm t
    if is_quota_error res.error then
      .error ⟨idx, results⟩
    else
      process_tracks fm rest (idx + 1) (results ++ [res])

/-- What a completed `process_movie` produces: the results it saves to the
JSON file of the movie and the `(total_tracks, successful_matches)` pair it
returns (`successful_matches` counts results with a `best_match`). -/
structure ProcessMovieOut where
  saved_results : List MusicLinkResult
  total_tracks : Nat
  successful_matches : Nat
deriving Repr, DecidableEq

/-- Model of `process_movie` for one movie given its parsed `tracks`, a resume point
and the previously completed results (`results = list(existing_results)`
then the track loop from `start_index`).  TTL parsing, the `skip_existing`
shortcut and file output are outside the model. -/
def process_movie (fm : SoundtrackMetadata → MusicLinkResult)
    (tracks : List SoundtrackMetadata) (start_index : Nat)
    (existing_results : List MusicLinkResult) :
    Except QuotaExceededException ProcessMovieOut :=
  match process_tracks fm (tracks.drop start_index) start_index existing_results with
  | .error q => .error q
  | .ok results =>
    .ok ⟨results, tracks.length, (results.filter (fun r => r.best_match.isSome)).length⟩

/-- The engine `main` builds for key index `k`:
`build_linker(yt_keys[k]).find_match`, as a pure per-track function. -/
def linker_for (cfg : LinkerConfig) (envs : Nat → EngineEnv) (k : Nat) :
    SoundtrackMetadata → MusicLinkResult :=
  fun t => (MusicLinker.find_match cfg (envs k) t).result

/-- The `while True` retry loop of `main` around one movie: call
`process_movie`; on `QuotaExceededException`, advance `current_key_index`;
if keys remain, rebuild the linker with the next key and retry the same
movie from the failed track index seeded with the carried results, else
give up (`none`, the all-keys-exhausted outcome).  On success returns the
output of the movie and the key index now current.  `keys_left` is the number of
untried keys after the current one (`num_keys - key_index - 1`), the
structural counter behind the `current_key_index + 1 < len(yt_keys)` test of the source
test. -/
def run_movie (cfg : LinkerConfig) (envs : Nat → EngineEnv) :
    Nat → Nat → List SoundtrackMetadata → Nat → List MusicLinkResult →
    Option (ProcessMovieOut × Nat)
  | keys_left, key_index, tracks, start_index, existing_results =>
    match process_movie (linker_for cfg envs key_index) tracks start_index existing_results with
    | .ok out => some (out, key_index)
    | .error q =>
      match keys_left with
      | 0 => none
      | kl + 1 => run_movie cfg envs kl (key_index + 1) tracks q.resume_index q.completed_results

/-- Aggregate outcome of the movie loop of `main`. -/
structure RunMoviesOut where
  movie_results : List ProcessMovieOut
  movies_processed : Nat
  quota_exceeded : Bool
  key_index : Nat
deriving Repr, DecidableEq

/-- The `for movie_folder in movie_folders` loop of `main`: each movie runs
through `run_movie` with the current key index; the all-keys-exhausted
outcome sets `quota_exceeded` and breaks out without touching the remaining
movies. -/
def run_movies (cfg : LinkerConfig) (envs : Nat → EngineEnv) (num_keys : Nat) :
    List (List SoundtrackMetadata) → Nat → RunMoviesOut
  | [], key_index => ⟨[], 0, false, key_index⟩
  | tracks :: rest, key_index =>
    match run_movie cfg envs (num_keys - key_index - 1) key_index tracks 0 [] with
    | none => ⟨[], 0, true, key_index⟩
    | some (out, k) =>
      let tail := run_movies cfg envs num_keys rest k
      ⟨out :: tail.movie_results, tail.movies_processed + 1,
       tail.quota_exceeded, tail.key_index⟩

/-- Observable outcome of one `main` run: the process exit status, the
movie counts of the final summary, and the completed/remaining counts the
all-keys-exhausted report logs (`none` when that report is not emitted). -/
structure MainSummary where
  exit_code : Nat
  movies_processed : Nat
  movies_total : Nat
  reported_completed : Option Nat
  reported_remaining : Option Nat
  movie_results : List ProcessMovieOut
deriving Repr, DecidableEq

/-- Model of `main` after argument/key validation (which exits 1 on bad input):
process every movie with key rotation; `sys.exit(2)` when the quota flag was
set, otherwise fall off the end of `main` (exit status 0). -/
def batch_main (cfg : LinkerConfig) (envs : Nat → EngineEnv) (num_keys : Nat)
    (movies : List (List SoundtrackMetadata)) : MainSummary :=
  let out := run_movies cfg envs num_keys movies 0
  { exit_code := if out.quota_exceeded then 2 else 0
    movies_processed := out.movies_processed
    movies_total := movies.length
    reported_completed := if out.quota_exceeded then some out.movies_processed else none
    reported_remaining :=
      if out.quota_exceeded then some (movies.length - out.movies_processed) else none
    movie_results := out.movie_results }

/-- Two videos agreeing on every field except possibly `comments`. -/
def same_except_comments (a b : YouTubeVideo) : Prop :=
  a.video_id = b.video_id ∧ a.title = b.title ∧ a.url = b.url ∧
  a.description = b.description ∧ a.channel_title = b.channel_title ∧
  a.published_at = b.published_at ∧ a.view_count = b.view_count ∧
  a.like_count = b.like_count ∧ a.duration = b.duration

/-- Default used with `List.getD` in index-based statements. -/
def dummy_video : YouTubeVideo := { video_id := "", title := "", url := "" }

/-! Concrete fixtures used by the witness and counterexample theorems. -/

/-- A record with performer and movie context. -/
def t_titanic : SoundtrackMetadata :=
  { title := "My Heart Will Go On"
    performer := some "Celine Dion"
    movie_title := some "Titanic" }

/-- A record with a composer but no performer. -/
def t_composed : SoundtrackMetadata :=
  { title := "Gonna Fly Now"
    composer := some "Bill Conti"
    movie_title := some "Rocky" }

/-- A minimal record, title only. -/
def track_n (i : Nat) : SoundtrackMetadata := { title := "T" ++ toString i }

/-- Configuration with comment fetching disabled. -/
def cfg_nc : LinkerConfig := { use_comments := false }

/-- Candidate video fixture; the tag distinguishes which API key served it. -/
def vid_fix (tag q : String) : YouTubeVideo :=
  { video_id := tag ++ q, title := q, url := "https://w/" ++ tag ++ q }

/-- The rational `9/10` with explicit numerator and denominator, so that witness proofs
can evaluate it inside the kernel. -/
def rat_nine_tenths : Rat := ⟨9, 10, by norm_num, by norm_num⟩

/-- The rational `1/2` with explicit numerator and denominator. -/
def rat_half : Rat := ⟨1, 2, by norm_num, by norm_num⟩

/-- A well-formed parsed LLM answer choosing candidate 1. -/
def mr_fix : MatchResult :=
  { best_match_index := 1, confidence := rat_nine_tenths, reasoning := "title match", key_factors := ["title"] }

/-- Environment whose search always finds nothing. -/
def env_allempty : EngineEnv :=
  { search := fun _ _ => .ok []
    fetch_comments := fun _ _ => .ok []
    llm := .ok mr_fix
    jitter := fun _ => 0 }

/-- Environment whose search always raises a quota `HttpError`. -/
def env_quota : EngineEnv :=
  { env_allempty with search := fun _ _ => .raise ⟨"HttpError", "HttpError 403: quotaExceeded"⟩ }

/-- Keyed environments: key 0 hits its quota on the query of `track_n 2`,
every other (key, query) pair succeeds with one candidate tagged by the key. -/
def envs_rot : Nat → EngineEnv :=
  fun k =>
    { search := fun q _ =>
        if k == 0 && q == "T2" then .raise ⟨"HttpError", "403 quotaExceeded"⟩
        else .ok [vid_fix (toString k) q]
      fetch_comments := fun _ _ => .ok []
      llm := .ok mr_fix
      jitter := fun _ => 0 }

/-- The five-track movie of the quota scenario in the spec. -/
def movie_five : List SoundtrackMetadata :=
  [track_n 0, track_n 1, track_n 2, track_n 3, track_n 4]

/-- A comment fetcher that fails for exactly one video id. -/
def fetch_one_fail : String → Nat → Except PyError (List YouTubeComment) :=
  fun v _ => if v == "aq1" then .error ⟨"HttpError", "comment fetch failed"⟩ else .ok [⟨"u", "nice", 3, none⟩]

/-! ## Helper lemmas -/

/-- A successfully validated LLM answer satisfies the pydantic bounds on
`confidence`. -/
theorem parse_llm_ok_bounds {resp : Except PyError MatchResult} {r : MatchResult}
    (h : parse_llm resp = .ok r) : 0 ≤ r.confidence ∧ r.confidence ≤ 1 := by
  cases resp with
  | error e => simp [parse_llm] at h
  | ok r0 =>
    by_cases hb : 0 ≤ r0.confidence ∧ r0.confidence ≤ 1
    · simp [parse_llm, hb] at h
      simpa [← h] using hb
    · simp [parse_llm, hb] at h

/-- Every `MatchScore` produced by `find_best_match` has confidence in
`[0, 1]`: the success path copies a validated value, the fallback uses 0.3. -/
theorem find_best_match_confidence {llm : Except PyError MatchResult}
    {s : SoundtrackMetadata} {candidates : List YouTubeVideo} {u : Bool}
    {score : MatchScore}
    (h : (GeminiMatcher.find_best_match llm s candidates u).2.1 = some score) :
    0 ≤ score.confidence ∧ score.confidence ≤ 1 := by
  cases candidates with
  | nil => simp [GeminiMatcher.find_best_match] at h
  | cons c0 cs =>
    cases hp : parse_llm llm with
    | ok mr =>
      have hb := parse_llm_ok_bounds hp
      simp [GeminiMatcher.find_best_match, hp] at h
      simpa [← h] using hb
    | error e =>
      simp [GeminiMatcher.find_best_match, hp] at h
      rw [← h]
      norm_num

/-! ## C5 -/

/-- C5: `find_best_match` with an empty candidate list returns `(None, None)`
without invoking the LLM client; with a non-empty list it never returns
`(None, None)`, and on any LLM call or parse failure it returns the first
candidate with a `MatchScore` of confidence 0.3 whose reasoning states the
failure and whose concerns include "LLM analysis failed". -/
theorem find_best_match_fallback_spec (llm : Except PyError MatchResult)
    (s : SoundtrackMetadata) (u : Bool) (c : YouTubeVideo) (cs : List YouTubeVideo) :
    GeminiMatcher.find_best_match llm s [] u = (none, none, false) ∧
    (GeminiMatcher.find_best_match llm s (c :: cs) u).1.isSome = true ∧
    (GeminiMatcher.find_best_match llm s (c :: cs) u).2.1.isSome = true ∧
    (∀ e : PyError, parse_llm llm = .error e →
      GeminiMatcher.find_best_match llm s (c :: cs) u =
        (some c,
         some ⟨3/10,
               "Error in LLM matching: " ++ e.msg.take 200 ++ ". Returning top search result as fallback.",
               ["Fallback to top search result"],
               ["LLM analysis failed", "Error type: " ++ e.name]⟩,
         true)) := by
  refine ⟨rfl, ?_, ?_, ?_⟩
  · cases hp : parse_llm llm <;> simp [GeminiMatcher.find_best_match, hp]
  · cases hp : parse_llm llm <;> simp [GeminiMatcher.find_best_match, hp]
  · intro e he
    simp [GeminiMatcher.find_best_match, he]

/-- C5 witness: concrete failing LLM call over a singleton candidate list,
and the empty-list case. -/
theorem find_best_match_fallback_spec_witness :
    GeminiMatcher.find_best_match (.error ⟨"APIError", "boom"⟩) t_titanic [] true
      = (none, none, false) ∧
    GeminiMatcher.find_best_match (.error ⟨"APIError", "boom"⟩) t_titanic [vid_fix "a" "q"] true
      = (some (vid_fix "a" "q"),
         some ⟨3/10,
               "Error in LLM matching: " ++ (PyError.mk "APIError" "boom").msg.take 200 ++ ". Returning top search result as fallback.",
               ["Fallback to top search result"],
               ["LLM analysis failed", "Error type: " ++ (PyError.mk "APIError" "boom").name]⟩,
         true) := by
  have h := find_best_match_fallback_spec (.error ⟨"APIError", "boom"⟩) t_titanic true
    (vid_fix "a" "q") []
  exact ⟨h.1, h.2.2.2 ⟨"APIError", "boom"⟩ rfl⟩

/-! ## C6 -/

/-- C6: when the parsed LLM answer carries a 1-indexed index that is out of
range after conversion to 0-indexed (0-indexed value negative, or at least
the candidate count), `find_best_match` clamps the selection to the first
candidate and still returns a score, without raising. -/
theorem find_best_match_clamps (llm : Except PyError MatchResult)
    (s : SoundtrackMetadata) (u : Bool) (mr : MatchResult)
    (c : YouTubeVideo) (cs : List YouTubeVideo)
    (hok : parse_llm llm = .ok mr)
    (hoor : mr.best_match_index - 1 < 0 ∨ ((c :: cs).length : Int) ≤ mr.best_match_index - 1) :
    GeminiMatcher.find_best_match llm s (c :: cs) u =
      (some c, some ⟨mr.confidence, mr.reasoning, mr.key_factors, mr.concerns⟩, true) := by
  simp only [GeminiMatcher.find_best_match, hok]
  rw [if_pos hoor]
  rfl

/-- C6 witness: the LLM answers index 0 (0-indexed −1) over two candidates;
the first candidate is returned. -/
theorem find_best_match_clamps_witness :
    GeminiMatcher.find_best_match
        (.ok { best_match_index := 0, confidence := rat_half, reasoning := "r", key_factors := [] })
        t_titanic [vid_fix "a" "x", vid_fix "a" "y"] false =
      (some (vid_fix "a" "x"), some ⟨rat_half, "r", [], []⟩, true) := by
  have h := find_best_match_clamps
    (.ok { best_match_index := 0, confidence := rat_half, reasoning := "r", key_factors := [] })
    t_titanic false { best_match_index := 0, confidence := rat_half, reasoning := "r", key_factors := [] }
    (vid_fix "a" "x") [vid_fix "a" "y"] rfl (by decide)
  exact h

/-! ## C7 -/

/-- C7: every `MatchScore` the pipeline returns — whether from
`find_best_match` directly or inside a `find_match` result — has
confidence in `[0.0, 1.0]`. -/
theorem pipeline_confidence_in_unit_interval (llm : Except PyError MatchResult)
    (s : SoundtrackMetadata) (candidates : List YouTubeVideo) (u : Bool)
    (cfg : LinkerConfig) (env : EngineEnv) (t : SoundtrackMetadata) :
    (∀ score : MatchScore,
      (GeminiMatcher.find_best_match llm s candidates u).2.1 = some score →
        0 ≤ score.confidence ∧ score.confidence ≤ 1) ∧
    (∀ score : MatchScore,
      (MusicLinker.find_match cfg env t).result.match_score = some score →
        0 ≤ score.confidence ∧ score.confidence ≤ 1) := by
  constructor
  · intro score h
    exact find_best_match_confidence h
  · intro score h
    cases hsr : search_rounds env cfg t 3 0 [] with
    | raised e sleeps rounds => simp [MusicLinker.find_match, hsr] at h
    | empty q sleeps rounds => simp [MusicLinker.find_match, hsr] at h
    | found videos q sleeps rounds =>
      simp only [MusicLinker.find_match, hsr] at h
      exact find_best_match_confidence h

/-- C7 witness: the fallback score of a failing LLM call at a concrete input
lies in `[0, 1]`. -/
theorem pipeline_confidence_in_unit_interval_witness :
    0 ≤ (3 : Rat)/10 ∧ (3 : Rat)/10 ≤ 1 := by
  have h := (pipeline_confidence_in_unit_interval (.error ⟨"APIError", "boom"⟩)
    t_titanic [vid_fix "a" "q"] true cfg_nc env_allempty t_titanic).1
    ⟨3/10,
     "Error in LLM matching: " ++ (PyError.mk "APIError" "boom").msg.take 200 ++ ". Returning top search result as fallback.",
     ["Fallback to top search result"],
     ["LLM analysis failed", "Error type: " ++ (PyError.mk "APIError" "boom").name]⟩ rfl
  exact h

/-! ## C9 -/

/-- C9: the queries of the three search rounds of `find_match` broaden
progressively.  For a record with a performer: round 0 is title + performer +
movie title, round 1 drops the movie title, round 2 is the title alone.
When no performer is present the composer takes the place of the performer. -/
theorem query_schedule (r : SoundtrackMetadata) (p m : String)
    (hp : r.performer = some p) (hm : r.movie_title = some m)
    (r2 : SoundtrackMetadata) (c m2 : String)
    (h2p : r2.performer = none) (h2c : r2.composer = some c)
    (h2m : r2.movie_title = some m2) :
    query_for_attempt r 0 = r.title ++ " " ++ p ++ " " ++ m ∧
    query_for_attempt r 1 = r.title ++ " " ++ p ∧
    query_for_attempt r 2 = r.title ∧
    query_for_attempt r2 0 = r2.title ++ " " ++ c ++ " " ++ m2 ∧
    query_for_attempt r2 1 = r2.title ++ " " ++ c ∧
    query_for_attempt r2 2 = r2.title := by
  refine ⟨?_, ?_, ?_, ?_, ?_, ?_⟩ <;>
    simp [query_for_attempt, SoundtrackMetadata.to_search_query, hp, hm, h2p, h2c, h2m,
      String.intercalate, String.intercalate.go, String.append_assoc]

/-- C9 witness: the schedule evaluated on a performer record and on a
composer-only record. -/
theorem query_schedule_witness :
    query_for_attempt t_titanic 0 = t_titanic.title ++ " " ++ "Celine Dion" ++ " " ++ "Titanic" ∧
    query_for_attempt t_titanic 1 = t_titanic.title ++ " " ++ "Celine Dion" ∧
    query_for_attempt t_titanic 2 = t_titanic.title ∧
    query_for_attempt t_composed 0 = t_composed.title ++ " " ++ "Bill Conti" ++ " " ++ "Rocky" ∧
    query_for_attempt t_composed 1 = t_composed.title ++ " " ++ "Bill Conti" ∧
    query_for_attempt t_composed 2 = t_composed.title :=
  query_schedule t_titanic "Celine Dion" "Titanic" rfl rfl t_composed "Bill Conti" "Rocky"
    rfl rfl rfl

/-! ## C10 -/

/-- C10: comment enrichment returns exactly as many candidates as it was
given, in the same order; each output candidate agrees with its input on
every field except possibly `comments`; a candidate whose comment fetch
fails is kept entirely unchanged, and one whose fetch succeeds carries the
fetched comments. -/
theorem enrichment_preserves
    (fetch : String → Nat → Except PyError (List YouTubeComment))
    (maxc : Nat) (videos : List YouTubeVideo) (i : Nat)
    (h : i < videos.length) :
    (enrich_videos_with_comments fetch videos maxc).length = videos.length ∧
    same_except_comments (videos.getD i dummy_video)
      ((enrich_videos_with_comments fetch videos maxc).getD i dummy_video) ∧
    ((fetch (videos.getD i dummy_video).video_id maxc).isOk = false →
      (enrich_videos_with_comments fetch videos maxc).getD i dummy_video
        = videos.getD i dummy_video) ∧
    (∀ cs, fetch (videos.getD i dummy_video).video_id maxc = .ok cs →
      (enrich_videos_with_comments fetch videos maxc).getD i dummy_video
        = { videos.getD i dummy_video with comments := cs }) := by
  have hv : videos.getD i dummy_video = videos[i] := by
    simp [List.getD_eq_getElem?_getD, List.getElem?_eq_getElem h]
  have he : (enrich_videos_with_comments fetch videos maxc).getD i dummy_video =
      match fetch (videos[i]).video_id maxc with
      | .ok cs => { videos[i] with comments := cs }
      | .error _ => videos[i] := by
    simp [enrich_videos_with_comments, List.getD_eq_getElem?_getD, List.getElem?_map,
      List.getElem?_eq_getElem h]
  refine ⟨by simp [enrich_videos_with_comments], ?_, ?_, ?_⟩
  · rw [hv, he]
    cases hf : fetch (videos[i]).video_id maxc with
    | ok cs => simp [hf, same_except_comments]
    | error e => simp [hf, same_except_comments]
  · intro hfail
    rw [hv] at hfail ⊢
    rw [he]
    cases hf : fetch (videos[i]).video_id maxc with
    | ok cs => rw [hf] at hfail; simp [Except.isOk, Except.toBool] at hfail
    | error e => simp [hf]
  · intro cs hok
    rw [hv] at hok ⊢
    rw [he, hok]

/-- C10 witness: two candidates, where the comment fetch of the first fails; the
output still has two entries and keeps the first candidate unchanged. -/
theorem enrichment_preserves_witness :
    (enrich_videos_with_comments fetch_one_fail [vid_fix "a" "q1", vid_fix "a" "q2"] 20).length
      = [vid_fix "a" "q1", vid_fix "a" "q2"].length ∧
    (enrich_videos_with_comments fetch_one_fail [vid_fix "a" "q1", vid_fix "a" "q2"] 20).getD 0 dummy_video
      = [vid_fix "a" "q1", vid_fix "a" "q2"].getD 0 dummy_video := by
  have h := enrichment_preserves fetch_one_fail 20 [vid_fix "a" "q1", vid_fix "a" "q2"] 0
    (by decide)
  exact ⟨h.1, h.2.2.1 (by decide)⟩

/-! ## C4 -/

/-- C4 counterexample: with a provider that returns an empty list on every
round, `find_match` reports `"No YouTube videos found"` — not the claimed
`"No videos found"` — and sleeps three times (once after every empty round,
the final round included), not twice. -/
theorem find_match_no_videos_counterexample :
    (MusicLinker.find_match cfg_nc env_allempty t_titanic).result.error
      = some "No YouTube videos found" ∧
    ¬ (MusicLinker.find_match cfg_nc env_allempty t_titanic).result.error
      = some "No videos found" ∧
    (MusicLinker.find_match cfg_nc env_allempty t_titanic).sleeps.length = 3 ∧
    (MusicLinker.find_match cfg_nc env_allempty t_titanic).rounds = 3 := by
  refine ⟨by decide, by decide, by decide, by decide⟩

/-- C4 (amended): if the provider returns an empty list on every round,
`find_match` performs exactly 3 search rounds, sleeps
`2 ** round + random.uniform(0, 1)` seconds after every empty round
(including the last — there is no cap and no skipped final wait), and
returns a `MusicLinkResult` with error `"No YouTube videos found"`, no
best match, no match score, and the last attempted query as its
`search_query`. -/
theorem find_match_no_videos (cfg : LinkerConfig) (env : EngineEnv)
    (s : SoundtrackMetadata)
    (hempty : ∀ q n, env.search q n = .ok []) :
    (MusicLinker.find_match cfg env s).rounds = 3 ∧
    (MusicLinker.find_match cfg env s).sleeps =
      [2 ^ 0 + env.jitter 0, 2 ^ 1 + env.jitter 1, 2 ^ 2 + env.jitter 2] ∧
    (MusicLinker.find_match cfg env s).result.error = some "No YouTube videos found" ∧
    (MusicLinker.find_match cfg env s).result.best_match = none ∧
    (MusicLinker.find_match cfg env s).result.match_score = none ∧
    (MusicLinker.find_match cfg env s).result.search_query = query_for_attempt s 2 := by
  have h3 : search_rounds env cfg s 3 0 [] =
      .empty (query_for_attempt s 2)
        [2 ^ 0 + env.jitter 0, 2 ^ 1 + env.jitter 1, 2 ^ 2 + env.jitter 2] 3 := by
    simp [search_rounds, hempty]
  simp [MusicLinker.find_match, h3]

/-- C4 witness: the amended statement at a concrete record and provider. -/
theorem find_match_no_videos_witness :
    (MusicLinker.find_match cfg_nc env_allempty t_titanic).rounds = 3 ∧
    (MusicLinker.find_match cfg_nc env_allempty t_titanic).sleeps =
      [2 ^ 0 + env_allempty.jitter 0, 2 ^ 1 + env_allempty.jitter 1,
       2 ^ 2 + env_allempty.jitter 2] ∧
    (MusicLinker.find_match cfg_nc env_allempty t_titanic).result.error
      = some "No YouTube videos found" ∧
    (MusicLinker.find_match cfg_nc env_allempty t_titanic).result.best_match = none ∧
    (MusicLinker.find_match cfg_nc env_allempty t_titanic).result.match_score = none ∧
    (MusicLinker.find_match cfg_nc env_allempty t_titanic).result.search_query
      = query_for_attempt t_titanic 2 :=
  find_match_no_videos cfg_nc env_allempty t_titanic (fun _ _ => rfl)

/-! ## C8 -/

/-- Unfolded behaviour of the sequential loop from any starting index:
results are the per-record `find_match` results in input order, and one
delay is drawn per consecutive pair. -/
theorem find_matches_sequential_spec (cfg : LinkerConfig) (env : EngineEnv)
    (delay_draw : Nat → Rat) :
    ∀ (tracks : List SoundtrackMetadata) (i : Nat),
      (MusicLinker.find_matches_sequential cfg env delay_draw tracks i).1
        = tracks.map (fun t => (MusicLinker.find_match cfg env t).result) ∧
      (MusicLinker.find_matches_sequential cfg env delay_draw tracks i).2
        = (List.range (tracks.length - 1)).map (fun k => delay_draw (i + k))
  | [], i => by simp [MusicLinker.find_matches_sequential]
  | [t], i => by simp [MusicLinker.find_matches_sequential]
  | t :: t2 :: rest, i => by
    have ih := find_matches_sequential_spec cfg env delay_draw (t2 :: rest) (i + 1)
    obtain ⟨ih1, ih2⟩ := ih
    have hstep : MusicLinker.find_matches_sequential cfg env delay_draw (t :: t2 :: rest) i
        = ((MusicLinker.find_match cfg env t).result ::
             (MusicLinker.find_matches_sequential cfg env delay_draw (t2 :: rest) (i + 1)).1,
           delay_draw i ::
             (MusicLinker.find_matches_sequential cfg env delay_draw (t2 :: rest) (i + 1)).2) := rfl
    rw [hstep]
    refine ⟨by simp [ih1], ?_⟩
    simp only [ih2]
    have hl1 : (t2 :: rest).length - 1 = rest.length := by simp
    have hl2 : (t :: t2 :: rest).length - 1 = rest.length + 1 := by simp
    rw [hl1, hl2, List.range_succ_eq_map, List.map_cons, List.map_map]
    congr 1
    refine List.map_congr_left (fun k _ => ?_)
    simp only [Function.comp]
    congr 1
    omega

/-- C8: `find_matches_sequential` processes the records one at a time in
input order, its result list has the same length with element `i` the
result for input record `i`, and a delay drawn from `delay_range` is
inserted between consecutive records (`length - 1` draws, none after the
last record), each within the configured bounds. -/
theorem sequential_preserves_order (cfg : LinkerConfig) (env : EngineEnv)
    (delay_draw : Nat → Rat) (lo hi : Rat) (tracks : List SoundtrackMetadata)
    (hd : ∀ i, lo ≤ delay_draw i ∧ delay_draw i ≤ hi) :
    (MusicLinker.find_matches_sequential cfg env delay_draw tracks 0).1
      = tracks.map (fun t => (MusicLinker.find_match cfg env t).result) ∧
    (MusicLinker.find_matches_sequential cfg env delay_draw tracks 0).2
      = (List.range (tracks.length - 1)).map delay_draw ∧
    ∀ d ∈ (MusicLinker.find_matches_sequential cfg env delay_draw tracks 0).2,
      lo ≤ d ∧ d ≤ hi := by
  have h := find_matches_sequential_spec cfg env delay_draw tracks 0
  have h2 : (MusicLinker.find_matches_sequential cfg env delay_draw tracks 0).2
      = (List.range (tracks.length - 1)).map delay_draw := by
    rw [h.2]
    exact List.map_congr_left (fun k _ => by simp)
  refine ⟨h.1, h2, ?_⟩
  intro d hdmem
  rw [h2] at hdmem
  obtain ⟨k, _, rfl⟩ := List.mem_map.mp hdmem
  exact hd k

/-- C8 witness: three records with a constant draw inside the bounds. -/
theorem sequential_preserves_order_witness :
    (MusicLinker.find_matches_sequential cfg_nc env_allempty (fun _ => rat_half)
        [track_n 0, track_n 1, track_n 2] 0).1
      = [track_n 0, track_n 1, track_n 2].map
          (fun t => (MusicLinker.find_match cfg_nc env_allempty t).result) ∧
    (MusicLinker.find_matches_sequential cfg_nc env_allempty (fun _ => rat_half)
        [track_n 0, track_n 1, track_n 2] 0).2
      = (List.range ([track_n 0, track_n 1, track_n 2].length - 1)).map (fun _ => rat_half) ∧
    ∀ d ∈ (MusicLinker.find_matches_sequential cfg_nc env_allempty (fun _ => rat_half)
        [track_n 0, track_n 1, track_n 2] 0).2, 0 ≤ d ∧ d ≤ 1 := by
  have hbound : (0 : Rat) ≤ rat_half ∧ rat_half ≤ 1 := by decide
  exact sequential_preserves_order cfg_nc env_allempty (fun _ => rat_half) 0 1
    [track_n 0, track_n 1, track_n 2] (fun _ => hbound)

/-! ## Batch-runner lemmas -/

/-- A search call that raises on the very first query makes `find_match`
return the converted result of its `except` branch. -/
theorem find_match_raise (cfg : LinkerConfig) (env : EngineEnv)
    (s : SoundtrackMetadata) (e : PyError)
    (hraise : env.search (query_for_attempt s 0) cfg.max_search_results = .raise e) :
    (MusicLinker.find_match cfg env s).result =
      { soundtrack := s
        search_query := s.to_search_query true true
        error := some e.msg } := by
  have h1 : search_rounds env cfg s 3 0 [] = .raised e [] 1 := by
    simp [search_rounds, hraise]
  simp [MusicLinker.find_match, h1]

/-- When no result in the window triggers the quota test, the track loop
completes and appends one result per track in order. -/
theorem process_tracks_no_quota (fm : SoundtrackMetadata → MusicLinkResult) :
    ∀ (l : List SoundtrackMetadata) (idx : Nat) (acc : List MusicLinkResult),
      (∀ t ∈ l, is_quota_error (fm t).error = false) →
      process_tracks fm l idx acc = .ok (acc ++ l.map fm)
  | [], idx, acc, _ => by simp [process_tracks]
  | t :: rest, idx, acc, h => by
    have ht : is_quota_error (fm t).error = false := h t (by simp)
    have ih := process_tracks_no_quota fm rest (idx + 1) (acc ++ [fm t])
      (fun u hu => h u (by simp [hu]))
    simp [process_tracks, ht, ih]

/-- The track loop stops at the first quota-flagged result: that result is
not appended, and the raised exception carries the absolute index of the
offending track together with the results accumulated before it. -/
theorem process_tracks_quota_at (fm : SoundtrackMetadata → MusicLinkResult)
    (t : SoundtrackMetadata) (hq : is_quota_error (fm t).error = true) :
    ∀ (l1 l2 : List SoundtrackMetadata) (idx : Nat) (acc : List MusicLinkResult),
      (∀ u ∈ l1, is_quota_error (fm u).error = false) →
      process_tracks fm (l1 ++ t :: l2) idx acc =
        .error ⟨idx + l1.length, acc ++ l1.map fm⟩
  | [], l2, idx, acc, _ => by simp [process_tracks, hq]
  | u :: rest, l2, idx, acc, h => by
    have hu : is_quota_error (fm u).error = false := h u (by simp)
    have ih := process_tracks_quota_at fm t hq rest l2 (idx + 1) (acc ++ [fm u])
      (fun w hw => h w (by simp [hw]))
    have hstep : process_tracks fm ((u :: rest) ++ t :: l2) idx acc
        = process_tracks fm (rest ++ t :: l2) (idx + 1) (acc ++ [fm u]) := by
      simp [process_tracks, hu]
    rw [hstep, ih]
    simp only [List.map_cons, List.length_cons, List.append_assoc, List.singleton_append]
    congr 2
    omega

/-- A list is its first `k` elements, element `k`, then the rest. -/
theorem take_get_drop {α : Type} (l : List α) (k : Nat) (hk : k < l.length) :
    l = l.take k ++ l[k] :: l.drop (k + 1) := by
  conv_lhs => rw [← List.take_append_drop k l]
  rw [List.drop_eq_getElem_cons hk]

/-- Applying `process_movie` from the start of a movie raises the quota exception at
the first quota-flagged track, carrying exactly the results of the earlier tracks. -/
theorem process_movie_quota (fm : SoundtrackMetadata → MusicLinkResult)
    (tracks : List SoundtrackMetadata) (k : Nat) (hk : k < tracks.length)
    (hprev : ∀ t ∈ tracks.take k, is_quota_error (fm t).error = false)
    (hq : is_quota_error (fm tracks[k]).error = true) :
    process_movie fm tracks 0 [] = .error ⟨k, (tracks.take k).map fm⟩ := by
  have hpt : process_tracks fm tracks 0 [] = .error ⟨k, (tracks.take k).map fm⟩ := by
    conv_lhs => rw [take_get_drop tracks k hk]
    rw [process_tracks_quota_at fm tracks[k] hq (tracks.take k) (tracks.drop (k + 1)) 0 []
      hprev]
    have hlen : (tracks.take k).length = k := by
      simp [List.length_take]
      omega
    simp [hlen]
  simp [process_movie, hpt]

/-- Applying `process_movie` resumed at `start_index` with carried results completes
when no remaining track triggers the quota test, saving the carried results
followed by one fresh result per remaining track. -/
theorem process_movie_resume_ok (fm : SoundtrackMetadata → MusicLinkResult)
    (tracks : List SoundtrackMetadata) (start_index : Nat)
    (existing : List MusicLinkResult)
    (hnoq : ∀ t ∈ tracks.drop start_index, is_quota_error (fm t).error = false) :
    process_movie fm tracks start_index existing =
      .ok ⟨existing ++ (tracks.drop start_index).map fm, tracks.length,
           ((existing ++ (tracks.drop start_index).map fm).filter
             (fun r => r.best_match.isSome)).length⟩ := by
  simp [process_movie, process_tracks_no_quota fm (tracks.drop start_index) start_index
    existing hnoq]

/-! ## C1 -/

/-- C1 counterexample: a quota `HttpError` raised by the search provider
inside `find_match` IS caught by the per-record `except` of the engine and
converted into a `MusicLinkResult` error (the quota message), rather than
propagating out of the engine. -/
theorem quota_is_converted_counterexample :
    (MusicLinker.find_match cfg_nc env_quota t_titanic).result.error
      = some "HttpError 403: quotaExceeded" ∧
    is_quota_error (MusicLinker.find_match cfg_nc env_quota t_titanic).result.error
      = true := by
  refine ⟨by decide, by decide⟩

/-- C1 (amended): the engine catches the quota condition and converts it
into a `MusicLinkResult` error; the per-movie loop of the batch runner then
detects the quota marker in that error string, does not record the failed
result of that track, and raises `QuotaExceededException` carrying the failed
track index and the results completed so far. -/
theorem quota_escalates_with_resume_info (cfg : LinkerConfig)
    (envs : Nat → EngineEnv) (key : Nat) (tracks : List SoundtrackMetadata)
    (k : Nat) (hk : k < tracks.length) (e : PyError)
    (hraise : (envs key).search (query_for_attempt tracks[k] 0) cfg.max_search_results
      = .raise e)
    (hmsg : str_has_sub e.msg "quotaExceeded" = true)
    (hprev : ∀ t ∈ tracks.take k,
      is_quota_error ((linker_for cfg envs key t).error) = false) :
    (linker_for cfg envs key tracks[k]).error = some e.msg ∧
    process_movie (linker_for cfg envs key) tracks 0 [] =
      .error ⟨k, (tracks.take k).map (linker_for cfg envs key)⟩ := by
  have herr : (linker_for cfg envs key tracks[k]).error = some e.msg := by
    rw [linker_for, find_match_raise cfg (envs key) tracks[k] e hraise]
  refine ⟨herr, ?_⟩
  refine process_movie_quota (linker_for cfg envs key) tracks k hk hprev ?_
  rw [herr]
  simp [is_quota_error, hmsg]

/-- C1 witness: the concrete five-track movie whose key-0 provider raises a
quota error on the third track. -/
theorem quota_escalates_with_resume_info_witness :
    (linker_for cfg_nc envs_rot 0 movie_five[2]).error = some "403 quotaExceeded" ∧
    process_movie (linker_for cfg_nc envs_rot 0) movie_five 0 [] =
      .error ⟨2, (movie_five.take 2).map (linker_for cfg_nc envs_rot 0)⟩ :=
  quota_escalates_with_resume_info cfg_nc envs_rot 0 movie_five 2 (by decide)
    ⟨"HttpError", "403 quotaExceeded"⟩ (by decide) (by decide) (by decide)

/-! ## C2 -/

/-- C2: if the provider under the current key flags quota exactly at track
`k` (earlier tracks clean) and the next key processes every track cleanly,
then (a) the pre-rotation quota exception carries index `k` and the results
of tracks `0..k-1` only, and (b) the per-movie retry loop rotates to the
next key, resumes at track `k` seeded with those results, and completes the
movie with exactly one result per track — tracks before `k` from the run of
the old key, tracks from `k` on from the run of the new key, no duplicates. -/
theorem quota_rotation_resumes (cfg : LinkerConfig) (envs : Nat → EngineEnv)
    (keys_after : Nat) (key : Nat) (tracks : List SoundtrackMetadata)
    (k : Nat) (hk : k < tracks.length)
    (hprev : ∀ t ∈ tracks.take k,
      is_quota_error ((linker_for cfg envs key t).error) = false)
    (hq : is_quota_error ((linker_for cfg envs key tracks[k]).error) = true)
    (hnext : ∀ t ∈ tracks,
      is_quota_error ((linker_for cfg envs (key + 1) t).error) = false) :
    process_movie (linker_for cfg envs key) tracks 0 [] =
      .error ⟨k, (tracks.take k).map (linker_for cfg envs key)⟩ ∧
    run_movie cfg envs (keys_after + 1) key tracks 0 [] =
      some (⟨(tracks.take k).map (linker_for cfg envs key)
               ++ (tracks.drop k).map (linker_for cfg envs (key + 1)),
             tracks.length,
             (((tracks.take k).map (linker_for cfg envs key)
               ++ (tracks.drop k).map (linker_for cfg envs (key + 1))).filter
               (fun r => r.best_match.isSome)).length⟩,
            key + 1) ∧
    ((tracks.take k).map (linker_for cfg envs key)
      ++ (tracks.drop k).map (linker_for cfg envs (key + 1))).length
      = tracks.length := by
  have hpm1 := process_movie_quota (linker_for cfg envs key) tracks k hk hprev hq
  have hnoq2 : ∀ t ∈ tracks.drop k,
      is_quota_error ((linker_for cfg envs (key + 1) t).error) = false :=
    fun t ht => hnext t (List.mem_of_mem_drop ht)
  have hpm2 := process_movie_resume_ok (linker_for cfg envs (key + 1)) tracks k
    ((tracks.take k).map (linker_for cfg envs key)) hnoq2
  refine ⟨hpm1, ?_, ?_⟩
  · rw [run_movie, hpm1]
    show run_movie cfg envs keys_after (key + 1) tracks k
        ((tracks.take k).map (linker_for cfg envs key)) = _
    rw [run_movie, hpm2]
  · simp [List.length_take, List.length_drop]
    omega

/-- C2 witness: the scenario of the spec — five tracks, quota flagged on the
third (index 2), one spare key; the movie completes with five results,
tracks 0–1 from key 0 and tracks 2–4 from key 1. -/
theorem quota_rotation_resumes_witness :
    process_movie (linker_for cfg_nc envs_rot 0) movie_five 0 [] =
      .error ⟨2, (movie_five.take 2).map (linker_for cfg_nc envs_rot 0)⟩ ∧
    run_movie cfg_nc envs_rot (0 + 1) 0 movie_five 0 [] =
      some (⟨(movie_five.take 2).map (linker_for cfg_nc envs_rot 0)
               ++ (movie_five.drop 2).map (linker_for cfg_nc envs_rot (0 + 1)),
             movie_five.length,
             (((movie_five.take 2).map (linker_for cfg_nc envs_rot 0)
               ++ (movie_five.drop 2).map (linker_for cfg_nc envs_rot (0 + 1))).filter
               (fun r => r.best_match.isSome)).length⟩,
            0 + 1) ∧
    ((movie_five.take 2).map (linker_for cfg_nc envs_rot 0)
      ++ (movie_five.drop 2).map (linker_for cfg_nc envs_rot (0 + 1))).length
      = movie_five.length :=
  quota_rotation_resumes cfg_nc envs_rot 0 0 movie_five 2 (by decide) (by decide)
    (by decide) (by decide)

/-! ## C3 -/

/-- Structure of the movie loop: one saved output per processed movie; the
quota flag clear means every movie was processed, the flag set means the
loop stopped with at least one movie unprocessed. -/
theorem run_movies_spec (cfg : LinkerConfig) (envs : Nat → EngineEnv)
    (num_keys : Nat) :
    ∀ (movies : List (List SoundtrackMetadata)) (key0 : Nat),
      (run_movies cfg envs num_keys movies key0).movie_results.length
        = (run_movies cfg envs num_keys movies key0).movies_processed ∧
      ((run_movies cfg envs num_keys movies key0).quota_exceeded = false →
        (run_movies cfg envs num_keys movies key0).movies_processed = movies.length) ∧
      ((run_movies cfg envs num_keys movies key0).quota_exceeded = true →
        (run_movies cfg envs num_keys movies key0).movies_processed < movies.length)
  | [], key0 => by simp [run_movies]
  | m :: rest, key0 => by
    cases hrm : run_movie cfg envs (num_keys - key0 - 1) key0 m 0 [] with
    | none => simp [run_movies, hrm]
    | some x =>
      obtain ⟨out, knew⟩ := x
      have ih := run_movies_spec cfg envs num_keys rest knew
      refine ⟨?_, ?_, ?_⟩
      · simp [run_movies, hrm, ih.1]
      · intro hq
        simp only [run_movies, hrm] at hq ⊢
        rw [ih.2.1 hq]
        simp
      · intro hq
        simp only [run_movies, hrm] at hq ⊢
        have := ih.2.2 hq
        simp only [List.length_cons]
        omega

/-- C3: the process exit status of the batch runner is 0 or the distinct code 2.
When no quota exhaustion occurs every movie is processed and the status
is 0.  When quota is exceeded with no credentials left the status is 2,
processing stops short of the full movie list (no advancing to further
movies: exactly one saved output per processed movie), and the final report
names how many movies completed and how many remain. -/
theorem batch_exit_status (cfg : LinkerConfig) (envs : Nat → EngineEnv)
    (num_keys : Nat) (movies : List (List SoundtrackMetadata)) :
    ((batch_main cfg envs num_keys movies).exit_code = 0 ∨
      (batch_main cfg envs num_keys movies).exit_code = 2) ∧
    ((run_movies cfg envs num_keys movies 0).quota_exceeded = false →
      (batch_main cfg envs num_keys movies).exit_code = 0 ∧
      (batch_main cfg envs num_keys movies).movies_processed = movies.length ∧
      (batch_main cfg envs num_keys movies).reported_remaining = none) ∧
    ((run_movies cfg envs num_keys movies 0).quota_exceeded = true →
      (batch_main cfg envs num_keys movies).exit_code = 2 ∧
      (batch_main cfg envs num_keys movies).movies_processed < movies.length ∧
      (batch_main cfg envs num_keys movies).reported_completed
        = some (batch_main cfg envs num_keys movies).movies_processed ∧
      (batch_main cfg envs num_keys movies).reported_remaining
        = some (movies.length - (batch_main cfg envs num_keys movies).movies_processed) ∧
      (batch_main cfg envs num_keys movies).movie_results.length
        = (batch_main cfg envs num_keys movies).movies_processed) := by
  have hs := run_movies_spec cfg envs num_keys movies 0
  cases hflag : (run_movies cfg envs num_keys movies 0).quota_exceeded
  · refine ⟨Or.inl (by simp [batch_main, hflag]), ?_, ?_⟩
    · intro _
      exact ⟨by simp [batch_main, hflag],
             by simpa [batch_main] using hs.2.1 hflag,
             by simp [batch_main, hflag]⟩
    · intro hq
      exact absurd hq (by simp)
  · refine ⟨Or.inr (by simp [batch_main, hflag]), ?_, ?_⟩
    · intro h0
      exact absurd h0 (by simp)
    · intro _
      refine ⟨by simp [batch_main, hflag],
              by simpa [batch_main] using hs.2.2 hflag,
              by simp [batch_main, hflag],
              by simp [batch_main, hflag],
              by simpa [batch_main] using hs.1⟩

/-- C3 witness: one key, two movies, quota hit inside the first movie —
exit status 2, zero of two movies processed, two reported remaining. -/
theorem batch_exit_status_witness :
    (batch_main cfg_nc envs_rot 1 [movie_five, [track_n 9]]).exit_code = 2 ∧
    (batch_main cfg_nc envs_rot 1 [movie_five, [track_n 9]]).movies_processed
      < [movie_five, [track_n 9]].length ∧
    (batch_main cfg_nc envs_rot 1 [movie_five, [track_n 9]]).reported_completed
      = some (batch_main cfg_nc envs_rot 1 [movie_five, [track_n 9]]).movies_processed ∧
    (batch_main cfg_nc envs_rot 1 [movie_five, [track_n 9]]).reported_remaining
      = some ([movie_five, [track_n 9]].length
          - (batch_main cfg_nc envs_rot 1 [movie_five, [track_n 9]]).movies_processed) ∧
    (batch_main cfg_nc envs_rot 1 [movie_five, [track_n 9]]).movie_results.length
      = (batch_main cfg_nc envs_rot 1 [movie_five, [track_n 9]]).movies_processed :=
  (batch_exit_status cfg_nc envs_rot 1 [movie_five, [track_n 9]]).2.2 (by decide)
